import Mathlib

/-!
Shallow embedding of the instauto media upload & publish pipeline
(`src/instauto/api/actions/post.py` and `src/instauto/api/actions/helpers.py`).

Network requests are not performed; instead every operation returns the list
of `Request` values it would issue, in order, together with its result (or the
error it raises).  Server responses (JSON bodies, generated UUIDs, timestamps)
are inputs, supplied by an oracle, since the claims quantify over them.
-/

deriving instance DecidableEq for Except

namespace Instauto

/-- HTTP method, mirroring `instauto.api.structs.Method` as used in `post.py`. -/
inductive Method where
  | GET
  | POST
deriving DecidableEq, Repr

/-- The errors the pipeline can raise: `ValueError` (validation),
`BadResponse` (provider-response error), Python `KeyError` from `dict.pop`
of a missing key, Python `IndexError` from indexing an empty list, and the
generic `Exception` raised for an unsupported post location. -/
inductive PostError where
  | valueError (msg : String)
  | badResponse
  | indexError
  | keyError (k : String)
  | unsupportedLocation (v : String)
deriving DecidableEq, Repr

/-- The retry-context counter structure serialized into upload requests. -/
structure RetryContext where
  num_reupload : Nat
  num_step_auto_retry : Nat
  num_step_manual_retry : Nat
deriving DecidableEq, Repr

/-- The image-compression descriptor built by `build_default_rupload_params`. -/
structure CompressionParams where
  lib_name : String
  lib_version : String
  quality : String
deriving DecidableEq, Repr

/-- The dict returned by `helpers.build_default_rupload_params`.  The nested
`json.dumps` calls are modelled structurally (the structures stand for their
serialized forms). -/
structure RuploadParams where
  upload_id : String
  media_type : Nat
  retry_context : RetryContext
  xsharing_user_ids : List String
  image_compression : CompressionParams
deriving DecidableEq, Repr

/-- The rupload params dict built inline by `_upload_video_in_chunks`. -/
structure VideoRuploadParams where
  upload_media_height : String
  upload_media_width : String
  xsharing_user_ids : List String
  upload_media_duration_ms : String
  upload_id : String
  retry_context : RetryContext
  media_type : String
deriving DecidableEq, Repr

/-- Embedding of `instauto.api.actions.structs.post.Location` as used by
`_request_fb_places_id` and `post_post`: optional latitude/longitude
(opaque numeric values, modelled as `Int`), optional free-text name and
optional already-resolved facebook places id. -/
structure Location where
  lat : Option Int
  lng : Option Int
  name : Option String
  facebook_places_id : Option String
deriving DecidableEq, Repr

/-- Header / query / payload values (Python dict values of mixed type).
`ruploadImg`, `ruploadVid`, `retryCtx` and `locJson` stand for the
`json.dumps` serialization of the corresponding structure. -/
inductive HVal where
  | str (s : String)
  | int (n : Int)
  | bool (b : Bool)
  | ruploadImg (p : RuploadParams)
  | ruploadVid (p : VideoRuploadParams)
  | retryCtx (r : RetryContext)
  | locJson (l : Location)
deriving DecidableEq, Repr

/-- A request body: nothing / empty string, raw bytes, or a key-value form. -/
inductive Body where
  | empty
  | strB (s : String)
  | bytes (bs : List Nat)
  | form (d : List (String × HVal))
deriving DecidableEq, Repr

/-- One HTTP request as handed to the transport collaborator `self._request`. -/
structure Request where
  url : String
  method : Method
  headers : List (String × HVal) := []
  query : List (String × HVal) := []
  body : Body := .empty
deriving DecidableEq, Repr

/-- Keys of an association list (Python dict key view). -/
def keysOf (d : List (String × HVal)) : List String := d.map Prod.fst

/-- First-match lookup in an association list (Python dict access). -/
def lookupH (k : String) (d : List (String × HVal)) : Option HVal :=
  (d.find? (fun kv => kv.1 = k)).map Prod.snd

/-- Python dict merge `{**a, **b}`: entries of `b` override entries of `a`.
Modelled so that first-match lookup on the result agrees with last-wins
dict semantics. -/
def dictMerge (a b : List (String × HVal)) : List (String × HVal) :=
  a.filter (fun kv => !((keysOf b).contains kv.1)) ++ b

/-- Remove the first binding of key `k` (Python `dict.pop(k)` on a dict,
where keys are unique). -/
def popKey (k : String) : List (String × HVal) → List (String × HVal)
  | [] => []
  | kv :: rest => if kv.1 = k then rest else kv :: popKey k rest

/-- Python `str.split(sep)` for a single-character separator, at the
character-list level: splitting always yields one more part than there are
separator occurrences (so the result is never empty). -/
def splitOnChar (c : Char) : List Char → List (List Char)
  | [] => [[]]
  | x :: xs =>
      let r := splitOnChar c xs
      if x = c then [] :: r
      else
        match r with
        | [] => [[x]]
        | y :: ys => (x :: y) :: ys

/-- Embedding of `helpers.get_image_type` on a string path: `p.split('.')[-1]`. -/
def get_image_type (p : String) : String :=
  ⟨(splitOnChar '.' p.data).getLastD []⟩

/-- Decimal-digit accumulator for `pyInt`. -/
def parseDigitsAux : List Char → Nat → Option Nat
  | [], acc => some acc
  | c :: cs, acc =>
      if c.isDigit then parseDigitsAux cs (acc * 10 + (c.toNat - 48))
      else none

/-- Python `int(s)` on a plain decimal string (no whitespace, no underscores):
an optional sign followed by at least one digit.  Used to state that the
decimal serialization of the quality value round-trips. -/
def pyInt (s : String) : Option Int :=
  match s.data with
  | [] => none
  | '-' :: ds => if ds = [] then none else (parseDigitsAux ds 0).map (fun n => -(n : Int))
  | ds => (parseDigitsAux ds 0).map (fun n => (n : Int))

/-- Embedding of `helpers.build_default_rupload_params`. -/
def build_default_rupload_params (upload_id : String) (quality : Int) :
    RuploadParams :=
  { upload_id := upload_id
    media_type := 1
    retry_context := ⟨0, 0, 0⟩
    xsharing_user_ids := []
    image_compression := ⟨"moz", "3.1.m", toString quality⟩ }

/-- Embedding of `helpers.remove_from_dict`: for each key in `to_remove`, `dict.pop(k)` is
attempted, and only `AttributeError` is caught.  A dict always has `pop`, so
`AttributeError` never occurs; a missing key raises `KeyError`, which
propagates. -/
def remove_from_dict (input_dict : List (String × HVal)) (to_remove : List String) :
    Except PostError (List (String × HVal)) :=
  match to_remove with
  | [] => .ok input_dict
  | k :: rest =>
      if (keysOf input_dict).contains k then
        remove_from_dict (popKey k input_dict) rest
      else
        .error (.keyError k)

/-- Python `str.replace(c, '')` for a single-character pattern: delete every
occurrence of `c`, scanning left to right. -/
def removeOcc (c : Char) : List Char → List Char
  | [] => []
  | x :: xs => if x = c then removeOcc c xs else x :: removeOcc c xs

/-- The duration normalization in `_upload_video_in_chunks`:
`obj.length.replace('.', '').replace(',', '')`. -/
def normalizeDuration (s : String) : String :=
  ⟨removeOcc ',' (removeOcc '.' s.data)⟩

/-- Python `quality or 70` in `_upload_image`: a falsy quality (`None` or `0`)
is replaced by `70`; any other value passes through. -/
def pyOrQuality (quality : Option Int) : Int :=
  match quality with
  | none => 70
  | some q => if q = 0 then 70 else q

/-- Embedding of `PostMixin._upload_image`: builds the single image-upload
request.  `content` models the bytes of the file at `path` (the file is read
whole).  Returns the request issued. -/
def upload_image (path : String) (content : List Nat) (waterfall_id : String)
    (entity_length : String) (entity_name : String) (entity_type : String)
    (session_id : String) (upload_id : String) (quality : Option Int) : Request :=
  { url := "https://i.instagram.com/rupload_igphoto/" ++ entity_name
    method := .POST
    headers :=
      [("x-fb-photo-waterfall-id", .str waterfall_id),
       ("x-entity-length", .str entity_length),
       ("x-entity-name", .str entity_name),
       ("x-instagram-rupload-params",
         .ruploadImg (build_default_rupload_params upload_id (pyOrQuality quality))),
       ("x-entity-type", .str entity_type),
       ("offset", .str "0"),
       ("scene_capture_type", .str "standard"),
       ("creation_logger_session_id", .str session_id)]
    body := .bytes content }

/-- One venue of a location-search response body. -/
structure Venue where
  external_id : String
deriving DecidableEq, Repr

/-- The JSON body of the response of the provider to a `location_search` request. -/
structure LocationSearchResponse where
  status : String
  venues : List Venue
deriving DecidableEq, Repr

/-- The `location_search` GET request issued by `_request_fb_places_id`. -/
def locationSearchRequest (query : List (String × HVal)) : Request :=
  { url := "location_search", method := .GET, query := query }

/-- Response handling in `_request_fb_places_id`: a non-"ok" `status` raises
`BadResponse`; otherwise `venues[0]` indexes the
venue list, raising `IndexError` when it is empty. -/
def handleLocationResponse (resp : LocationSearchResponse) : Except PostError String :=
  if resp.status ≠ "ok" then .error .badResponse
  else
    match resp.venues with
    | [] => .error .indexError
    | v :: _ => .ok v.external_id

/-- Embedding of `PostMixin._request_fb_places_id`.  `rank_token` models the
generated uuid, `resp` the response body of the provider.  Returns the requests
issued together with the resolved identifier or the error raised. -/
def request_fb_places_id (obj : Location) (rank_token : String)
    (resp : LocationSearchResponse) : List Request × Except PostError String :=
  match obj.lat, obj.lng with
  | some la, some ln =>
      let query :=
        [("latitude", HVal.int la), ("longitude", HVal.int ln)] ++
          (match obj.name with
           | some n => if n = "" then [] else [("search_query", HVal.str n)]
           | none => [])
      ([locationSearchRequest query], handleLocationResponse resp)
  | _, _ =>
      match obj.name with
      | none =>
          ([], .error (.valueError
            "Atleast a lat/lng combination or name needs to be specified."))
      | some n =>
          ([locationSearchRequest
              [("search_query", HVal.str n), ("rankToken", HVal.str rank_token)]],
           handleLocationResponse resp)

/-- Modelled from the spec: the `PostStory` / `PostFeed` upload spec object
(its class, `instauto.api.actions.structs.post`, is not under `src/`).  It
carries the fields `post_post` manipulates: the transport fields it pops from
the serialized dict, the target-location marker `source_type`, the optional
geo-location reference, and a content field (`caption`) standing for the
remaining payload. -/
structure PostImage where
  image_path : String
  imageContent : List Nat
  x_fb_waterfall_id : String
  entity_length : String
  entity_name : String
  entity_type : String
  upload_id : String
  source_type : String
  caption : String
  location : Option Location
deriving DecidableEq, Repr

/-- Modelled from the spec: `obj.fill(self).to_dict()` serializes all fields
of the spec object into a dict (`fill`/`to_dict` live in the structs module,
not under `src/`). -/
def PostImage.to_dict (o : PostImage) : List (String × HVal) :=
  [("image_path", .str o.image_path),
   ("x_fb_waterfall_id", .str o.x_fb_waterfall_id),
   ("entity_length", .str o.entity_length),
   ("entity_name", .str o.entity_name),
   ("entity_type", .str o.entity_type),
   ("upload_id", .str o.upload_id),
   ("source_type", .str o.source_type),
   ("caption", .str o.caption)]

/-- Modelled from the spec: the `PostLocation.Feed.value` marker
(`instauto.api.structs.PostLocation` is not under `src/`; the spec gives only
the enum shape {Feed, Story}, so the two values are modelled as distinct
opaque strings). -/
def PostLocationFeedValue : String := "feed"

/-- Modelled from the spec: the `PostLocation.Story.value` marker. -/
def PostLocationStoryValue : String := "story"

/-- The configure request built at the end of `post_post`: a signed POST with
the remaining payload and an all-zero `retry_context` header. -/
def configureRequest (endpoint : String) (payload : List (String × HVal)) : Request :=
  { url := endpoint
    method := .POST
    headers := [("retry_context", HVal.retryCtx ⟨0, 0, 0⟩)]
    body := .form payload }

/-- The final branch of `post_post`: Feed targets `media/configure/`, Story
targets `media/configure_to_story/`, anything else raises. -/
def selectConfigure (source_type : String) (payload : List (String × HVal)) :
    List Request × Except PostError Unit :=
  if source_type = PostLocationFeedValue then
    ([configureRequest "media/configure/" payload], .ok ())
  else if source_type = PostLocationStoryValue then
    ([configureRequest "media/configure_to_story/" payload], .ok ())
  else
    ([], .error (.unsupportedLocation source_type))

/-- Embedding of `PostMixin.post_post`.  The five transport keys are popped
from the serialized dict (by construction of `to_dict` the popped values are
the corresponding object fields, which are passed to `_upload_image`); an
unresolved location is resolved via `_request_fb_places_id` and serialized
into the payload; the configure endpoint is chosen by `source_type`.
Returns the requests issued, in order, and the outcome. -/
def post_post (obj : PostImage) (quality : Option Int) (session_id : String)
    (rank_token : String) (locResp : LocationSearchResponse) :
    List Request × Except PostError Unit :=
  let as_dict :=
    popKey "entity_type" (popKey "entity_name" (popKey "entity_length"
      (popKey "x_fb_waterfall_id" (popKey "image_path" obj.to_dict))))
  let uploadReq := upload_image obj.image_path obj.imageContent obj.x_fb_waterfall_id
      obj.entity_length obj.entity_name obj.entity_type session_id obj.upload_id quality
  match obj.location with
  | none =>
      let (ctr, cr) := selectConfigure obj.source_type as_dict
      (uploadReq :: ctr, cr)
  | some loc =>
      if loc.facebook_places_id = none ∨ loc.facebook_places_id = some "" then
        match request_fb_places_id loc rank_token locResp with
        | (locReqs, .error e) => (uploadReq :: locReqs, .error e)
        | (locReqs, .ok fbid) =>
            let payload := as_dict ++
              [("location", HVal.locJson { loc with facebook_places_id := some fbid })]
            let (ctr, cr) := selectConfigure obj.source_type payload
            (uploadReq :: locReqs ++ ctr, cr)
      else
        let payload := as_dict ++ [("location", HVal.locJson loc)]
        let (ctr, cr) := selectConfigure obj.source_type payload
        (uploadReq :: ctr, cr)

/-- Modelled from the spec: the `PostFeedVideo` upload spec object (its
class lives in the structs module, not under `src/`).  It carries the fields
`post_video` and its helpers access directly (`path`, `thumbnail_path`,
`height`, `width`, `length`, `upload_id`) and the fields named by the
finish/configure removal lists, plus a content field (`caption`).
`pathContent` / `thumbnailContent` model the bytes of the files at `path`
and `thumbnail_path`. -/
structure PostFeedVideo where
  path : String
  pathContent : List Nat
  thumbnail_path : String
  thumbnailContent : List Nat
  height : Int
  width : Int
  length : String
  upload_id : String
  caption : String
  audio_muted : Bool
  creation_logger_session_id : String
  multi_sharing : Int
  quality_info : String
  pdg_hash_info : String
deriving DecidableEq, Repr

/-- Modelled from the spec: `obj.fill(self).to_dict()` for a video spec
serializes all fields of the object into a dict. -/
def PostFeedVideo.to_dict (o : PostFeedVideo) : List (String × HVal) :=
  [("path", .str o.path),
   ("thumbnail_path", .str o.thumbnail_path),
   ("height", .int o.height),
   ("width", .int o.width),
   ("length", .str o.length),
   ("upload_id", .str o.upload_id),
   ("caption", .str o.caption),
   ("audio_muted", .bool o.audio_muted),
   ("creation_logger_session_id", .str o.creation_logger_session_id),
   ("multi_sharing", .int o.multi_sharing),
   ("quality_info", .str o.quality_info),
   ("pdg_hash_info", .str o.pdg_hash_info)]

/-- Embedding of `PostMixin._bytes_from_file`: repeated `f.read(chunksize)`
until an empty read.  `content` models the file bytes.  With `chunksize = 0`
Python returns an empty bytes object from `read(0)` at once and the generator yields nothing. -/
def bytes_from_file (content : List Nat) (chunksize : Nat) : List (List Nat) :=
  if h : chunksize = 0 ∨ content = [] then []
  else
    content.take chunksize :: bytes_from_file (content.drop chunksize) chunksize
termination_by content.length
decreasing_by
  simp only [List.length_drop]
  push_neg at h
  have h1 : 0 < chunksize := Nat.pos_of_ne_zero h.1
  have h2 : 0 < content.length := List.length_pos.mpr h.2
  omega

/-- The per-publish oracle for the video session: the generated start uuid,
the `stream_id` from the JSON body of the start response, and per-chunk generated
entity names and transfer-GET response bodies. -/
structure VideoOracle where
  start_uuid : String
  stream_id : HVal
  chunk_entity_name : Nat → String
  chunk_get_headers : Nat → List (String × HVal)

/-- The `phase=start` request of `_upload_video_in_chunks`, with its inline
rupload params (`str(int(height))`, `str(int(width))`, normalized duration,
all-zero retry context, `media_type` `"2"`). -/
def videoStartRequest (o : PostFeedVideo) (start_uuid : String) : Request :=
  { url := "rupload_igvideo/" ++ start_uuid ++ "/"
    method := .POST
    headers :=
      [("x-instagram-rupload-params", HVal.ruploadVid
        { upload_media_height := toString o.height
          upload_media_width := toString o.width
          xsharing_user_ids := []
          upload_media_duration_ms := normalizeDuration o.length
          upload_id := o.upload_id
          retry_context := ⟨0, 0, 0⟩
          media_type := "2" })]
    query := [("segmented", .str "true"), ("phase", .str "start")]
    body := .strB "" }

/-- The entity-name-qualified transfer URL used by both requests of a pair. -/
def transferUrl (entity_name : String) : String :=
  "rupload_igvideo/" ++ entity_name ++ "?segmented=true&phase=transfer"

/-- The transfer loop of `_upload_video_in_chunks`: for the chunk list
(chunk index `i`, cumulative byte offset `offset`) issue a GET carrying the
session headers, then a POST whose headers merge (Python `{**a, **b, **c}`,
last wins) the session headers, the GET response body, and the fixed markers
including `segment-start-offset` = the cumulative offset; then advance the
offset by the length of the chunk. -/
def transferChunks (orc : VideoOracle) (headers : List (String × HVal)) :
    List (List Nat) → Nat → Nat → List Request
  | [], _, _ => []
  | chunk :: rest, i, offset =>
      let en := orc.chunk_entity_name i
      let getReq : Request :=
        { url := transferUrl en, method := .GET, headers := headers }
      let postReq : Request :=
        { url := transferUrl en
          method := .POST
          headers := dictMerge (dictMerge headers (orc.chunk_get_headers i))
            [("segment-type", .int 3), ("x-entity-type", .str "video/mp4"),
             ("offset", .str "0"), ("segment-start-offset", .str (toString offset))]
          body := .bytes chunk }
      getReq :: postReq :: transferChunks orc headers rest (i + 1) (offset + chunk.length)

/-- Embedding of `PostMixin._upload_video_in_chunks`: the start request, then
one GET/POST pair per 1024-byte chunk of the file; returns the requests and
the session headers carrying the stream id taken from the start response. -/
def upload_video_in_chunks (o : PostFeedVideo) (orc : VideoOracle) :
    List Request × List (String × HVal) :=
  let headers := [("stream_id", orc.stream_id)]
  (videoStartRequest o orc.start_uuid ::
     transferChunks orc headers (bytes_from_file o.pathContent 1024) 0 0,
   headers)

/-- The per-publish oracle for the thumbnail step: the generated thumbnail
entity name, waterfall id, and the `str(time.time())` value used as the
synthetic upload id of the thumbnail. -/
structure ThumbOracle where
  thumbnail_entity_name : String
  waterfall_id : String
  timestamp : String
deriving DecidableEq, Repr

/-- Embedding of `PostMixin._upload_video_thumbnail`: measures the thumbnail
length (a file seek, no request), validates the extension-derived image type
against the list of `jpg` and `jpeg` before any request, then issues the `phase=end`
request with the session headers followed by the thumbnail image upload
(quality argument `0`). -/
def upload_video_thumbnail (o : PostFeedVideo) (headers : List (String × HVal))
    (torc : ThumbOracle) (session_id : String) :
    List Request × Except PostError Unit :=
  let thumbnail_entity_length := o.thumbnailContent.length
  let image_type := get_image_type o.thumbnail_path
  if ¬ (image_type = "jpg" ∨ image_type = "jpeg") then
    ([], .error (.valueError "Instagram only accepts jpg/jpeg images"))
  else
    let endReq : Request :=
      { url := "rupload_igvideo/" ++ torc.thumbnail_entity_name ++ "?segmented=true&phase=end"
        method := .POST
        headers := headers }
    let imgReq := upload_image o.thumbnail_path o.thumbnailContent torc.waterfall_id
        (toString thumbnail_entity_length) torc.thumbnail_entity_name
        ("image/" ++ image_type) session_id torc.timestamp (some 0)
    ([endReq, imgReq], .ok ())

/-- The removal list of `_finish_video_upload`, verbatim from the source. -/
def finishFields : List String :=
  ["path", "thumbnail_path", "creation_logger_session_id", "multi_sharing",
   "height", "width", "quality_info", "pdg_hash_info"]

/-- The removal list of `_configure_video`, verbatim from the source. -/
def configureFields : List String :=
  ["path", "thumbnail_path", "audio_muted", "height", "width",
   "quality_info", "pdg_hash_info"]

/-- Embedding of `PostMixin._finish_video_upload`: serialize the spec and
strip `finishFields`, then POST the payload to `media/upload_finish/?video=1`. -/
def finish_video_upload (o : PostFeedVideo) : Except PostError Request :=
  (remove_from_dict o.to_dict finishFields).map
    (fun d => { url := "media/upload_finish/?video=1", method := .POST, body := .form d })

/-- Embedding of `PostMixin._configure_video`: serialize the spec and strip
`configureFields`, then POST the payload to `media/upload_finish/?video=1`. -/
def configure_video (o : PostFeedVideo) : Except PostError Request :=
  (remove_from_dict o.to_dict configureFields).map
    (fun d => { url := "media/upload_finish/?video=1", method := .POST, body := .form d })

/-- Embedding of `PostMixin.post_video`: chunked upload, thumbnail step,
finish, configure — the requests of each stage appended in order, aborting at the
first error. -/
def post_video (o : PostFeedVideo) (orc : VideoOracle) (torc : ThumbOracle)
    (session_id : String) : List Request × Except PostError Unit :=
  let pair := upload_video_in_chunks o orc
  match upload_video_thumbnail o pair.2 torc session_id with
  | (tr2, .error e) => (pair.1 ++ tr2, .error e)
  | (tr2, .ok _) =>
      match finish_video_upload o with
      | .error e => (pair.1 ++ tr2, .error e)
      | .ok finReq =>
          match configure_video o with
          | .error e => (pair.1 ++ tr2 ++ [finReq], .error e)
          | .ok confReq => (pair.1 ++ tr2 ++ [finReq, confReq], .ok ())

/-- The cumulative byte offsets at which each chunk starts: chunk `i` starts
at the total length of chunks `0..i-1` (the loop variable `offset` before
each transfer, advanced by the length of the chunk after it). -/
def chunkOffsets (off : Nat) : List Nat → List Nat
  | [] => []
  | s :: rest => off :: chunkOffsets (off + s) rest

/-- The keys of a form body (used to state payload-field properties). -/
def formKeys : Body → List String
  | .form d => keysOf d
  | _ => []

/-- A concrete video upload spec used as test input. -/
def sampleVideo : PostFeedVideo :=
  { path := "v.mp4"
    pathContent := [1, 2, 3]
    thumbnail_path := "t.jpg"
    thumbnailContent := [9, 9]
    height := 720
    width := 1280
    length := "10"
    upload_id := "uid"
    caption := "cap"
    audio_muted := true
    creation_logger_session_id := "sess"
    multi_sharing := 0
    quality_info := "qi"
    pdg_hash_info := "ph" }

/-- A concrete video-session oracle used as test input. -/
def sampleOracle : VideoOracle :=
  { start_uuid := "su"
    stream_id := .str "sid"
    chunk_entity_name := fun i => "en" ++ toString i
    chunk_get_headers := fun _ => [] }

/-- A concrete thumbnail-step oracle used as test input. -/
def sampleThumbOracle : ThumbOracle :=
  { thumbnail_entity_name := "te", waterfall_id := "wf", timestamp := "1700000000.0" }

/-- A concrete image post spec used as test input (no location). -/
def samplePostImage : PostImage :=
  { image_path := "p.jpg"
    imageContent := [5]
    x_fb_waterfall_id := "wf"
    entity_length := "1"
    entity_name := "en"
    entity_type := "image/jpeg"
    upload_id := "uid"
    source_type := PostLocationFeedValue
    caption := "cap"
    location := none }

/-! ### Helper lemmas -/

theorem removeOcc_comm_filter (l : List Char) :
    removeOcc ',' (removeOcc '.' l) = l.filter (fun c => !(c == '.' || c == ',')) := by
  induction l with
  | nil => rfl
  | cons x xs ih =>
      by_cases h1 : x = '.'
      · subst h1; simp [removeOcc, ih]
      · by_cases h2 : x = ','
        · subst h2; simp [removeOcc, ih]
        · simp [removeOcc, h1, h2, ih]

theorem mem_keysOf_popKey {k x : String} {d : List (String × HVal)}
    (hx : x ∈ keysOf (popKey k d)) : x ∈ keysOf d := by
  induction d with
  | nil => simpa [popKey, keysOf] using hx
  | cons kv rest ih =>
      rw [popKey] at hx
      by_cases hk : kv.1 = k
      · rw [if_pos hk] at hx
        simp only [keysOf, List.map_cons]
        exact List.mem_cons_of_mem _ hx
      · rw [if_neg hk] at hx
        simp only [keysOf, List.map_cons, List.mem_cons] at hx ⊢
        rcases hx with hx | hx
        · exact .inl hx
        · exact .inr (ih hx)

theorem remove_from_dict_shape (d : List (String × HVal)) (ks : List String) :
    (∃ r, remove_from_dict d ks = .ok r) ∨
    (∃ k ∈ ks, remove_from_dict d ks = .error (.keyError k)) := by
  induction ks generalizing d with
  | nil => exact .inl ⟨d, rfl⟩
  | cons k rest ih =>
      rw [remove_from_dict]
      by_cases h : (keysOf d).contains k
      · rw [if_pos h]
        rcases ih (popKey k d) with ⟨r, hr⟩ | ⟨k2, hk2, he⟩
        · exact .inl ⟨r, hr⟩
        · exact .inr ⟨k2, List.mem_cons_of_mem _ hk2, he⟩
      · rw [if_neg h]
        exact .inr ⟨k, List.mem_cons_self _ _, rfl⟩

theorem remove_from_dict_ok_keys {d : List (String × HVal)} {ks : List String}
    {r : List (String × HVal)} (h : remove_from_dict d ks = .ok r) :
    ∀ k ∈ ks, k ∈ keysOf d := by
  induction ks generalizing d with
  | nil => intro k hk; cases hk
  | cons k0 rest ih =>
      rw [remove_from_dict] at h
      by_cases hc : (keysOf d).contains k0
      · rw [if_pos hc] at h
        intro k hk
        rcases List.mem_cons.mp hk with hk | hk
        · subst hk; exact List.mem_of_elem_eq_true hc
        · exact mem_keysOf_popKey (ih h k hk)
      · rw [if_neg hc] at h
        cases h

/-! ### Claim theorems -/

/-- C7: the duration normalization applied before the value is sent as
`upload_media_duration_ms` removes exactly the characters `.` and `,` and
performs no other transformation; in particular `"1,234.5"` maps to
`"12345"` and `"10"` maps to `"10"`. -/
theorem duration_normalization (s : String) :
    normalizeDuration s = ⟨s.data.filter (fun c => !(c == '.' || c == ','))⟩ ∧
    normalizeDuration "1,234.5" = "12345" ∧
    normalizeDuration "10" = "10" := by
  refine ⟨?_, by decide, by decide⟩
  rw [normalizeDuration, removeOcc_comm_filter]

/-- C8: `build_default_rupload_params` always returns an all-zero retry
context and an image-compression descriptor with `lib_name "moz"`,
`lib_version "3.1.m"` and `quality` the exact decimal string of the given
quality; for quality 1–100 the decimal serialization parses back to the same
integer. -/
theorem rupload_params_properties :
    (∀ (upload_id : String) (q : Int),
        (build_default_rupload_params upload_id q).retry_context =
          { num_reupload := 0, num_step_auto_retry := 0, num_step_manual_retry := 0 } ∧
        (build_default_rupload_params upload_id q).image_compression =
          { lib_name := "moz", lib_version := "3.1.m", quality := toString q }) ∧
    (∀ q : Int, 1 ≤ q → q ≤ 100 → pyInt (toString q) = some q) := by
  refine ⟨fun uid q => ⟨rfl, rfl⟩, ?_⟩
  intro q h1 h2
  interval_cases q <;> decide

/-- C8 witness: the round-trip at quality 70. -/
theorem rupload_params_properties_witness :
    pyInt (toString (70 : Int)) = some 70 :=
  rupload_params_properties.2 70 (by norm_num) (by norm_num)

/-- C1 counterexample: on a concrete video spec, the finish payload retains
`audio_muted` (the claim says the finish variant removes it), and the
configure payload retains `creation_logger_session_id` and `multi_sharing`
(the claim says both variants remove them) while removing `audio_muted`
(the claim says the configure variant retains it). -/
theorem finish_configure_removal_counterexample :
    (finish_video_upload sampleVideo).toOption.map (fun r => formKeys r.body) =
      some ["length", "upload_id", "caption", "audio_muted"] ∧
    "audio_muted" ∈ ["length", "upload_id", "caption", "audio_muted"] ∧
    (configure_video sampleVideo).toOption.map (fun r => formKeys r.body) =
      some ["length", "upload_id", "caption", "creation_logger_session_id", "multi_sharing"] ∧
    "creation_logger_session_id" ∈
      ["length", "upload_id", "caption", "creation_logger_session_id", "multi_sharing"] ∧
    "multi_sharing" ∈
      ["length", "upload_id", "caption", "creation_logger_session_id", "multi_sharing"] ∧
    "audio_muted" ∉
      ["length", "upload_id", "caption", "creation_logger_session_id", "multi_sharing"] := by
  decide

/-- C1 (amended): both steps serialize the spec and remove the common
transport-only fields path, thumbnail path, dimensions and quality/PDG-hash
info; the logger session id and multi-sharing flag are removed only in the
finish variant, and the `audio_muted` field is removed only in the configure
payload of the configure variant and retained in the payload of the finish variant. -/
theorem finish_configure_removal (o : PostFeedVideo) :
    finish_video_upload o = .ok
      { url := "media/upload_finish/?video=1", method := .POST,
        body := .form [("length", .str o.length), ("upload_id", .str o.upload_id),
                       ("caption", .str o.caption), ("audio_muted", .bool o.audio_muted)] } ∧
    configure_video o = .ok
      { url := "media/upload_finish/?video=1", method := .POST,
        body := .form [("length", .str o.length), ("upload_id", .str o.upload_id),
                       ("caption", .str o.caption),
                       ("creation_logger_session_id", .str o.creation_logger_session_id),
                       ("multi_sharing", .int o.multi_sharing)] } :=
  ⟨rfl, rfl⟩

/-- C9: `remove_from_dict` only catches `AttributeError` while `dict.pop` on
a missing key raises `KeyError`, so a removal list containing a key absent
from the dict makes the call raise a `KeyError` instead of skipping the key,
and the call returns normally only when every listed key is present. -/
theorem remove_from_dict_keyerror (d : List (String × HVal)) (ks : List String) :
    (∀ r, remove_from_dict d ks = .ok r → ∀ k ∈ ks, k ∈ keysOf d) ∧
    ((∃ k ∈ ks, k ∉ keysOf d) →
       (∃ k ∈ ks, remove_from_dict d ks = .error (.keyError k)) ∧
       ∀ r, remove_from_dict d ks ≠ .ok r) := by
  refine ⟨fun r hr => remove_from_dict_ok_keys hr, fun h => ⟨?_, ?_⟩⟩
  · rcases remove_from_dict_shape d ks with ⟨r, hr⟩ | he
    · rcases h with ⟨k, hk, hnot⟩
      exact absurd (remove_from_dict_ok_keys hr k hk) hnot
    · exact he
  · intro r hr
    rcases h with ⟨k, hk, hnot⟩
    exact hnot (remove_from_dict_ok_keys hr k hk)

/-- C9 witness: removing `["a", "b"]` from a dict holding only `"a"` raises
a `KeyError`. -/
theorem remove_from_dict_keyerror_witness :
    ∃ k ∈ ["a", "b"], remove_from_dict [("a", HVal.str "x")] ["a", "b"] =
      .error (.keyError k) :=
  ((remove_from_dict_keyerror [("a", HVal.str "x")] ["a", "b"]).2
    ⟨"b", by decide, by decide⟩).1

/-- C6: a thumbnail path whose file-extension-derived image type is not
`jpg`/`jpeg` makes `_upload_video_thumbnail` raise a validation error before
issuing any request; a `jpg`/`jpeg` type proceeds to the End-phase request
followed by the thumbnail image upload. -/
theorem thumbnail_type_validation (o : PostFeedVideo) (hdrs : List (String × HVal))
    (torc : ThumbOracle) (sid : String) :
    (¬(get_image_type o.thumbnail_path = "jpg" ∨ get_image_type o.thumbnail_path = "jpeg") →
       upload_video_thumbnail o hdrs torc sid =
         ([], .error (.valueError "Instagram only accepts jpg/jpeg images"))) ∧
    ((get_image_type o.thumbnail_path = "jpg" ∨ get_image_type o.thumbnail_path = "jpeg") →
       upload_video_thumbnail o hdrs torc sid =
         ([{ url := "rupload_igvideo/" ++ torc.thumbnail_entity_name ++ "?segmented=true&phase=end",
             method := .POST, headers := hdrs },
           upload_image o.thumbnail_path o.thumbnailContent torc.waterfall_id
             (toString o.thumbnailContent.length) torc.thumbnail_entity_name
             ("image/" ++ get_image_type o.thumbnail_path) sid torc.timestamp (some 0)],
          .ok ())) := by
  constructor
  · intro h
    rw [upload_video_thumbnail, if_pos h]
  · intro h
    rw [upload_video_thumbnail, if_neg (not_not_intro h)]

/-- C6 witness: a `.png` thumbnail fails with the validation error and no
request; a `.jpg` thumbnail proceeds to the End request and image upload. -/
theorem thumbnail_type_validation_witness :
    upload_video_thumbnail { sampleVideo with thumbnail_path := "t.png" } []
        sampleThumbOracle "s" =
      ([], .error (.valueError "Instagram only accepts jpg/jpeg images")) ∧
    (upload_video_thumbnail sampleVideo [] sampleThumbOracle "s").2 = .ok () := by
  constructor
  · exact (thumbnail_type_validation _ [] sampleThumbOracle "s").1 (by decide)
  · have h := (thumbnail_type_validation sampleVideo [] sampleThumbOracle "s").2
      (Or.inl (by decide))
    rw [h]

/-- C10: `_upload_image` replaces every falsy quality (both `None` and `0`)
with 70, so a quality argument of `0` emits compression quality `"70"`; the
video-thumbnail upload passes quality `0` and therefore always emits
quality `"70"`. -/
theorem upload_image_falsy_quality (path : String) (content : List Nat)
    (waterfall elen ename etype sid uid : String) (o : PostFeedVideo)
    (hdrs : List (String × HVal)) (torc : ThumbOracle)
    (h : get_image_type o.thumbnail_path = "jpg" ∨ get_image_type o.thumbnail_path = "jpeg") :
    (∀ q : Option Int, (q = none ∨ q = some 0) → pyOrQuality q = 70) ∧
    lookupH "x-instagram-rupload-params"
        (upload_image path content waterfall elen ename etype sid uid (some 0)).headers =
      some (.ruploadImg (build_default_rupload_params uid 70)) ∧
    (build_default_rupload_params uid 70).image_compression.quality = "70" ∧
    (upload_video_thumbnail o hdrs torc sid).1 =
      [{ url := "rupload_igvideo/" ++ torc.thumbnail_entity_name ++ "?segmented=true&phase=end",
         method := .POST, headers := hdrs },
       upload_image o.thumbnail_path o.thumbnailContent torc.waterfall_id
         (toString o.thumbnailContent.length) torc.thumbnail_entity_name
         ("image/" ++ get_image_type o.thumbnail_path) sid torc.timestamp (some 0)] := by
  refine ⟨?_, rfl, rfl, ?_⟩
  · intro q hq
    rcases hq with hq | hq <;> subst hq <;> rfl
  · rw [upload_video_thumbnail, if_neg (not_not_intro h)]

/-- C10 witness: the thumbnail image upload of a concrete video spec carries
compression quality `"70"`. -/
theorem upload_image_falsy_quality_witness :
    (upload_video_thumbnail sampleVideo [("stream_id", HVal.str "sid")] sampleThumbOracle
        "s").1.map (fun r => lookupH "x-instagram-rupload-params" r.headers) =
      [none, some (.ruploadImg (build_default_rupload_params "1700000000.0" 70))] ∧
    (build_default_rupload_params "1700000000.0" 70).image_compression.quality = "70" := by
  have h := upload_image_falsy_quality "p" [] "w" "1" "e" "t" "s" "u" sampleVideo
    [("stream_id", HVal.str "sid")] sampleThumbOracle (Or.inl (by decide))
  refine ⟨?_, h.2.2.1⟩
  rw [h.2.2.2]
  decide

/-- C2 counterexample: with `lat` present but `lng` and `name` absent (so not
all three are absent) the code raises the validation error and issues no
request, where the claim promises one request; and with status `"ok"` and an
empty venue list the code raises `IndexError` (from `venues[0]`), not the
bad-response error the claim promises. -/
theorem location_resolution_counterexample :
    request_fb_places_id
        { lat := some 1, lng := none, name := none, facebook_places_id := none }
        "tok" { status := "ok", venues := [{ external_id := "123" }] } =
      ([], .error (.valueError
        "Atleast a lat/lng combination or name needs to be specified.")) ∧
    request_fb_places_id
        { lat := none, lng := none, name := some "cafe", facebook_places_id := none }
        "tok" { status := "ok", venues := [] } =
      ([locationSearchRequest [("search_query", HVal.str "cafe"), ("rankToken", HVal.str "tok")]],
       .error .indexError) ∧
    PostError.indexError ≠ PostError.badResponse := by
  decide

/-- C2 (amended): if `lat` or `lng` is absent and `name` is absent, location
resolution raises a validation error before issuing any request; otherwise
exactly one `location_search` GET is issued (by latitude/longitude if both
are present, else by free-text name), and the resolved identifier is the
external id of the first venue when the response has status `"ok"` and a
non-empty venue list, while a non-`"ok"` status raises a bad-response error
and an `"ok"` status with an empty venue list raises an index error, in both
cases with no further requests. -/
theorem location_resolution (obj : Location) (tok : String)
    (resp : LocationSearchResponse) :
    (((obj.lat = none ∨ obj.lng = none) ∧ obj.name = none) →
        request_fb_places_id obj tok resp =
          ([], .error (.valueError
            "Atleast a lat/lng combination or name needs to be specified."))) ∧
    (¬((obj.lat = none ∨ obj.lng = none) ∧ obj.name = none) →
        (request_fb_places_id obj tok resp).1.map (fun r => (r.url, r.method)) =
          [("location_search", Method.GET)] ∧
        (request_fb_places_id obj tok resp).2 = handleLocationResponse resp) ∧
    (∀ la ln, obj.lat = some la → obj.lng = some ln →
        ∃ extra, (request_fb_places_id obj tok resp).1 =
          [locationSearchRequest
            ([("latitude", HVal.int la), ("longitude", HVal.int ln)] ++ extra)]) ∧
    ((obj.lat = none ∨ obj.lng = none) → ∀ n, obj.name = some n →
        (request_fb_places_id obj tok resp).1 =
          [locationSearchRequest [("search_query", HVal.str n), ("rankToken", HVal.str tok)]]) ∧
    (resp.status ≠ "ok" → handleLocationResponse resp = .error .badResponse) ∧
    (resp.status = "ok" → resp.venues = [] → handleLocationResponse resp = .error .indexError) ∧
    (∀ v vs, resp.status = "ok" → resp.venues = v :: vs →
        handleLocationResponse resp = .ok v.external_id) := by
  obtain ⟨lat, lng, name, fb⟩ := obj
  refine ⟨?_, ?_, ?_, ?_, ?_, ?_, ?_⟩
  · rintro ⟨hor, hname⟩
    subst hname
    rcases hor with h | h
    · subst h; cases lng <;> rfl
    · subst h; cases lat <;> rfl
  · intro hn
    cases lat with
    | some la =>
        cases lng with
        | some ln => exact ⟨rfl, rfl⟩
        | none =>
            cases name with
            | none => exact absurd ⟨Or.inr rfl, rfl⟩ hn
            | some n => exact ⟨rfl, rfl⟩
    | none =>
        cases name with
        | none => exact absurd ⟨Or.inl rfl, rfl⟩ hn
        | some n => cases lng <;> exact ⟨rfl, rfl⟩
  · intro la ln hla hln
    subst hla; subst hln
    exact ⟨_, rfl⟩
  · rintro hor n hname
    subst hname
    rcases hor with h | h
    · subst h; cases lng <;> rfl
    · subst h; cases lat <;> rfl
  · intro h
    rw [handleLocationResponse, if_pos h]
  · intro h hv
    rw [handleLocationResponse, if_neg (not_not_intro h), hv]
  · intro v vs h hv
    rw [handleLocationResponse, if_neg (not_not_intro h), hv]

/-- C2 witness: a name-only location with an `"ok"`/one-venue response
resolves to the external id of that venue through exactly one request. -/
theorem location_resolution_witness :
    request_fb_places_id
        { lat := none, lng := none, name := some "cafe", facebook_places_id := none }
        "tok" { status := "ok", venues := [{ external_id := "123" }] } =
      ([locationSearchRequest [("search_query", HVal.str "cafe"), ("rankToken", HVal.str "tok")]],
       .ok "123") := by
  have h := location_resolution
    { lat := none, lng := none, name := some "cafe", facebook_places_id := none }
    "tok" { status := "ok", venues := [{ external_id := "123" }] }
  have h1 := h.2.1 (by decide)
  have h2 := h.2.2.2.1 (Or.inl rfl) "cafe" rfl
  have h3 := h.2.2.2.2.2.2 ⟨"123"⟩ [] rfl rfl
  exact Prod.ext h2 (h1.2.trans h3)

theorem lookupH_append (k : String) (l1 l2 : List (String × HVal)) :
    lookupH k (l1 ++ l2) = (lookupH k l1).orElse (fun _ => lookupH k l2) := by
  induction l1 with
  | nil => simp [lookupH]
  | cons kv rest ih =>
      by_cases h : kv.1 = k
      · simp [lookupH, List.find?_cons, h]
      · simp only [List.cons_append]
        simp [lookupH, List.find?_cons, h] at ih ⊢
        exact ih

theorem lookupH_filter_none (k : String) (p : String × HVal → Bool)
    (l : List (String × HVal)) (hp : ∀ v, p (k, v) = false) :
    lookupH k (l.filter p) = none := by
  induction l with
  | nil => rfl
  | cons kv rest ih =>
      rw [List.filter_cons]
      by_cases hkv : p kv = true
      · rw [if_pos hkv]
        have hne : kv.1 ≠ k := by
          intro he
          have : p (k, kv.2) = true := by rw [← he]; exact hkv
          rw [hp kv.2] at this
          cases this
        simpa [lookupH, List.find?_cons, hne] using ih
      · rw [if_neg hkv]
        exact ih

theorem lookupH_filter_congr (k : String) (p : String × HVal → Bool)
    (l : List (String × HVal)) (hp : ∀ v, p (k, v) = true) :
    lookupH k (l.filter p) = lookupH k l := by
  induction l with
  | nil => rfl
  | cons kv rest ih =>
      rw [List.filter_cons]
      by_cases h : kv.1 = k
      · have hkv : p kv = true := by
          have : kv = (k, kv.2) := by rw [← h]
          rw [this]; exact hp kv.2
        rw [if_pos hkv]
        simp [lookupH, List.find?_cons, h]
      · by_cases hkv : p kv = true
        · rw [if_pos hkv]
          simpa [lookupH, List.find?_cons, h] using ih
        · rw [if_neg hkv]
          simpa [lookupH, List.find?_cons, h] using ih

theorem lookupH_dictMerge_right (k : String) (a b : List (String × HVal))
    (hk : (keysOf b).contains k = true) :
    lookupH k (dictMerge a b) = lookupH k b := by
  rw [dictMerge, lookupH_append,
    lookupH_filter_none k _ a (fun v => by simp only [hk, Bool.not_true])]
  rfl

theorem lookupH_eq_none (k : String) (l : List (String × HVal))
    (h : (keysOf l).contains k = false) : lookupH k l = none := by
  induction l with
  | nil => rfl
  | cons kv rest ih =>
      simp only [keysOf, List.map_cons, List.contains_cons, Bool.or_eq_false_iff,
        beq_eq_false_iff_ne] at h
      have hne : kv.1 ≠ k := fun he => h.1 he.symm
      simpa [lookupH, List.find?_cons, hne] using ih (by simpa [keysOf] using h.2)

theorem lookupH_dictMerge_left (k : String) (a b : List (String × HVal))
    (hk : (keysOf b).contains k = false) :
    lookupH k (dictMerge a b) = lookupH k a := by
  rw [dictMerge, lookupH_append,
    lookupH_filter_congr k _ a (fun v => by simp only [hk, Bool.not_false]),
    lookupH_eq_none k b hk]
  cases lookupH k a <;> rfl

theorem bytes_from_file_1024_length (content : List Nat) :
    (bytes_from_file content 1024).length = (content.length + 1023) / 1024 := by
  have main : ∀ n (c : List Nat), c.length ≤ n →
      (bytes_from_file c 1024).length = (c.length + 1023) / 1024 := by
    intro n
    induction n with
    | zero =>
        intro c hc
        have hcnil : c = [] := List.eq_nil_of_length_eq_zero (Nat.le_zero.mp hc)
        subst hcnil
        rw [bytes_from_file]
        simp
    | succ n ih =>
        intro c hc
        rw [bytes_from_file]
        by_cases hnil : c = []
        · rw [dif_pos (Or.inr hnil)]
          subst hnil
          simp
        · rw [dif_neg (by push_neg; exact ⟨by norm_num, hnil⟩)]
          have hlen : 0 < c.length := List.length_pos.mpr hnil
          rw [List.length_cons, ih (c.drop 1024) (by simp [List.length_drop]; omega)]
          simp only [List.length_drop]
          omega
  exact main content.length content le_rfl

theorem bytes_from_file_1024_join (content : List Nat) :
    (bytes_from_file content 1024).flatten = content := by
  have main : ∀ n (c : List Nat), c.length ≤ n →
      (bytes_from_file c 1024).flatten = c := by
    intro n
    induction n with
    | zero =>
        intro c hc
        have hcnil : c = [] := List.eq_nil_of_length_eq_zero (Nat.le_zero.mp hc)
        subst hcnil
        rw [bytes_from_file]
        simp
    | succ n ih =>
        intro c hc
        rw [bytes_from_file]
        by_cases hnil : c = []
        · rw [dif_pos (Or.inr hnil)]
          subst hnil
          rfl
        · rw [dif_neg (by push_neg; exact ⟨by norm_num, hnil⟩)]
          have hlen : 0 < c.length := List.length_pos.mpr hnil
          rw [List.flatten_cons, ih (c.drop 1024) (by simp [List.length_drop]; omega)]
          exact List.take_append_drop _ _
  exact main content.length content le_rfl

theorem transferChunks_length (orc : VideoOracle) (hdrs : List (String × HVal))
    (cs : List (List Nat)) (i off : Nat) :
    (transferChunks orc hdrs cs i off).length = 2 * cs.length := by
  induction cs generalizing i off with
  | nil => rfl
  | cons c rest ih =>
      simp only [transferChunks, List.length_cons, ih, List.length_cons]
      omega

theorem transferChunks_methods (orc : VideoOracle) (hdrs : List (String × HVal))
    (cs : List (List Nat)) (i off : Nat) :
    (transferChunks orc hdrs cs i off).map Request.method =
      (List.replicate cs.length [Method.GET, Method.POST]).flatten := by
  induction cs generalizing i off with
  | nil => rfl
  | cons c rest ih =>
      simp only [transferChunks, List.map_cons, List.length_cons, List.replicate_succ,
        List.flatten_cons, ih]
      rfl

theorem filter_post_cons_get (u : String) (h2 q : List (String × HVal)) (b : Body)
    (l : List Request) :
    (({ url := u, method := Method.GET, headers := h2, query := q, body := b } : Request)
        :: l).filter (fun r => r.method == Method.POST) =
      l.filter (fun r => r.method == Method.POST) := rfl

theorem filter_post_cons_post (u : String) (h2 q : List (String × HVal)) (b : Body)
    (l : List Request) :
    (({ url := u, method := Method.POST, headers := h2, query := q, body := b } : Request)
        :: l).filter (fun r => r.method == Method.POST) =
      { url := u, method := Method.POST, headers := h2, query := q, body := b }
        :: l.filter (fun r => r.method == Method.POST) := rfl

theorem transferChunks_post_bodies (orc : VideoOracle) (hdrs : List (String × HVal))
    (cs : List (List Nat)) (i off : Nat) :
    ((transferChunks orc hdrs cs i off).filter (fun r => r.method == Method.POST)).map
        (fun r => r.body) =
      cs.map Body.bytes := by
  induction cs generalizing i off with
  | nil => rfl
  | cons c rest ih =>
      simp only [transferChunks, filter_post_cons_get, filter_post_cons_post, List.map_cons]
      rw [ih (i + 1) (off + c.length)]

theorem transferChunks_offsets (orc : VideoOracle) (hdrs : List (String × HVal))
    (cs : List (List Nat)) (i off : Nat) :
    ((transferChunks orc hdrs cs i off).filter (fun r => r.method == Method.POST)).map
        (fun r => lookupH "segment-start-offset" r.headers) =
      (chunkOffsets off (cs.map List.length)).map (fun n => some (HVal.str (toString n))) := by
  induction cs generalizing i off with
  | nil => rfl
  | cons c rest ih =>
      simp only [transferChunks, filter_post_cons_get, filter_post_cons_post, List.map_cons]
      have hlook : lookupH "segment-start-offset"
          (dictMerge (dictMerge hdrs (orc.chunk_get_headers i))
            [("segment-type", .int 3), ("x-entity-type", .str "video/mp4"),
             ("offset", .str "0"), ("segment-start-offset", .str (toString off))]) =
          some (.str (toString off)) := by
        rw [lookupH_dictMerge_right _ _ _ (by rfl)]
        rfl
      rw [hlook, ih (i + 1) (off + c.length)]
      rfl

theorem chunkOffsets_getD (off : Nat) (sizes : List Nat) (i : Nat) (h : i < sizes.length) :
    (chunkOffsets off sizes).getD i 0 = off + (sizes.take i).sum := by
  induction sizes generalizing off i with
  | nil => exact absurd h (Nat.not_lt_zero i)
  | cons s rest ih =>
      cases i with
      | zero => simp [chunkOffsets]
      | succ i =>
          have hi : i < rest.length := by simpa using h
          simp only [chunkOffsets, List.getD_cons_succ, List.take_succ_cons, List.sum_cons,
            ih (off + s) i hi]
          omega

theorem chunkOffsets_getLast (off : Nat) (sizes : List Nat) (h : sizes ≠ []) :
    ∃ x, sizes.getLast? = some x ∧
      (chunkOffsets off sizes).getLast? = some (off + sizes.sum - x) := by
  induction sizes generalizing off with
  | nil => exact absurd rfl h
  | cons s rest ih =>
      cases rest with
      | nil => exact ⟨s, rfl, by simp [chunkOffsets]⟩
      | cons s2 r2 =>
          obtain ⟨x, hx1, hx2⟩ := ih (off + s) (by simp)
          refine ⟨x, ?_, ?_⟩
          · rw [List.getLast?_cons_cons]
            exact hx1
          · have hstep : (off :: chunkOffsets (off + s) (s2 :: r2)).getLast? =
                (chunkOffsets (off + s) (s2 :: r2)).getLast? := by
              rw [chunkOffsets, List.getLast?_cons_cons]
            rw [chunkOffsets, hstep, hx2]
            congr 1
            simp only [List.sum_cons]
            omega

/-- C3: for a video file of `S` bytes uploaded with chunk size 1024, the
transfer phase issues `ceil(S/1024)` GET/POST pairs, in file byte order; the
`segment-start-offset` header of the `i`-th POST is the total length of
chunks `0..i-1` (tracked by an offset that advances by the length of each chunk),
so the final chunk reports `S - lastChunkSize`. -/
theorem chunked_transfer (content : List Nat) (orc : VideoOracle)
    (hdrs : List (String × HVal)) :
    (transferChunks orc hdrs (bytes_from_file content 1024) 0 0).length =
      2 * ((content.length + 1023) / 1024) ∧
    (transferChunks orc hdrs (bytes_from_file content 1024) 0 0).map Request.method =
      (List.replicate ((content.length + 1023) / 1024) [Method.GET, Method.POST]).flatten ∧
    ((transferChunks orc hdrs (bytes_from_file content 1024) 0 0).filter
        (fun r => r.method == Method.POST)).map (fun r => r.body) =
      (bytes_from_file content 1024).map Body.bytes ∧
    (bytes_from_file content 1024).flatten = content ∧
    ((transferChunks orc hdrs (bytes_from_file content 1024) 0 0).filter
        (fun r => r.method == Method.POST)).map
        (fun r => lookupH "segment-start-offset" r.headers) =
      (chunkOffsets 0 ((bytes_from_file content 1024).map List.length)).map
        (fun n => some (HVal.str (toString n))) ∧
    (∀ i, i < (bytes_from_file content 1024).length →
        (chunkOffsets 0 ((bytes_from_file content 1024).map List.length)).getD i 0 =
          (((bytes_from_file content 1024).map List.length).take i).sum) ∧
    (bytes_from_file content 1024 ≠ [] →
        ∃ lc, (bytes_from_file content 1024).getLast? = some lc ∧
          (chunkOffsets 0 ((bytes_from_file content 1024).map List.length)).getLast? =
            some (content.length - lc.length)) := by
  refine ⟨?_, ?_, transferChunks_post_bodies orc hdrs _ 0 0,
    bytes_from_file_1024_join content, transferChunks_offsets orc hdrs _ 0 0, ?_, ?_⟩
  · rw [transferChunks_length, bytes_from_file_1024_length]
  · rw [transferChunks_methods, bytes_from_file_1024_length]
  · intro i hi
    have h := chunkOffsets_getD 0 ((bytes_from_file content 1024).map List.length) i
      (by simpa using hi)
    simpa using h
  · intro hne
    have hsz : (bytes_from_file content 1024).map List.length ≠ [] := by
      simpa using hne
    obtain ⟨x, hx1, hx2⟩ := chunkOffsets_getLast 0 _ hsz
    rw [List.getLast?_map] at hx1
    cases hlast : (bytes_from_file content 1024).getLast? with
    | none =>
        rw [hlast] at hx1
        cases hx1
    | some lc =>
        refine ⟨lc, rfl, ?_⟩
        rw [hlast] at hx1
        have hx : x = lc.length := by
          simpa using hx1.symm
        have hsum : ((bytes_from_file content 1024).map List.length).sum = content.length := by
          rw [← List.length_join, bytes_from_file_1024_join]
        rw [hx2, hx, hsum]
        congr 1
        omega

/-- C3 witness: a 2500-byte file yields three transfer pairs whose final
chunk starts at offset `2500 - 452`. -/
theorem chunked_transfer_witness :
    (transferChunks sampleOracle [("stream_id", HVal.str "sid")]
        (bytes_from_file (List.replicate 2500 7) 1024) 0 0).length = 2 * 3 ∧
    (∃ lc, (bytes_from_file (List.replicate 2500 7) 1024).getLast? = some lc ∧
      (chunkOffsets 0 ((bytes_from_file (List.replicate 2500 7) 1024).map List.length)).getLast? =
        some (2500 - lc.length)) := by
  have h := chunked_transfer (List.replicate 2500 7) sampleOracle [("stream_id", HVal.str "sid")]
  refine ⟨?_, ?_⟩
  · rw [h.1, List.length_replicate]
  · have hne : bytes_from_file (List.replicate 2500 7) 1024 ≠ [] := by
      intro hc
      have hlen := bytes_from_file_1024_length (List.replicate 2500 7)
      rw [hc, List.length_replicate] at hlen
      norm_num at hlen
    have h2 := h.2.2.2.2.2.2 hne
    simp only [List.length_replicate] at h2
    exact h2

theorem transferChunks_stream_id (orc : VideoOracle) (hdrs : List (String × HVal))
    (cs : List (List Nat)) (i off : Nat) (sidv : HVal)
    (hsid : lookupH "stream_id" hdrs = some sidv)
    (hget : ∀ j, (keysOf (orc.chunk_get_headers j)).contains "stream_id" = false) :
    ∀ r ∈ transferChunks orc hdrs cs i off, lookupH "stream_id" r.headers = some sidv := by
  induction cs generalizing i off with
  | nil => intro r hr; cases hr
  | cons c rest ih =>
      intro r hr
      simp only [transferChunks, List.mem_cons] at hr
      rcases hr with hr | hr | hr
      · subst hr; exact hsid
      · subst hr
        show lookupH "stream_id"
          (dictMerge (dictMerge hdrs (orc.chunk_get_headers i))
            [("segment-type", .int 3), ("x-entity-type", .str "video/mp4"),
             ("offset", .str "0"), ("segment-start-offset", .str (toString off))]) = some sidv
        rw [lookupH_dictMerge_left _ _ _ (by rfl), lookupH_dictMerge_left _ _ _ (hget i)]
        exact hsid
      · exact ih (i + 1) (off + c.length) r hr

/-- C4: `post_video` issues, in order, one Start call, the Transfer pairs,
one End call, one thumbnail image upload, one finish call and one configure
call, with no later-phase call before every earlier-phase call; the
`stream_id` from the Start response is attached as a header to every
Transfer request and to the End request. -/
theorem post_video_phases (o : PostFeedVideo) (orc : VideoOracle) (torc : ThumbOracle)
    (sid : String)
    (hthumb : get_image_type o.thumbnail_path = "jpg" ∨ get_image_type o.thumbnail_path = "jpeg")
    (hget : ∀ j, (keysOf (orc.chunk_get_headers j)).contains "stream_id" = false) :
    post_video o orc torc sid =
      (videoStartRequest o orc.start_uuid ::
        (transferChunks orc [("stream_id", orc.stream_id)] (bytes_from_file o.pathContent 1024) 0 0 ++
         [{ url := "rupload_igvideo/" ++ torc.thumbnail_entity_name ++ "?segmented=true&phase=end",
            method := .POST, headers := [("stream_id", orc.stream_id)] },
          upload_image o.thumbnail_path o.thumbnailContent torc.waterfall_id
            (toString o.thumbnailContent.length) torc.thumbnail_entity_name
            ("image/" ++ get_image_type o.thumbnail_path) sid torc.timestamp (some 0),
          { url := "media/upload_finish/?video=1", method := .POST,
            body := .form [("length", .str o.length), ("upload_id", .str o.upload_id),
                           ("caption", .str o.caption), ("audio_muted", .bool o.audio_muted)] },
          { url := "media/upload_finish/?video=1", method := .POST,
            body := .form [("length", .str o.length), ("upload_id", .str o.upload_id),
                           ("caption", .str o.caption),
                           ("creation_logger_session_id", .str o.creation_logger_session_id),
                           ("multi_sharing", .int o.multi_sharing)] }]),
       .ok ()) ∧
    (∀ r ∈ transferChunks orc [("stream_id", orc.stream_id)]
        (bytes_from_file o.pathContent 1024) 0 0,
       lookupH "stream_id" r.headers = some orc.stream_id) ∧
    lookupH "stream_id" ([("stream_id", orc.stream_id)] : List (String × HVal)) =
      some orc.stream_id := by
  refine ⟨?_, transferChunks_stream_id orc _ _ 0 0 orc.stream_id rfl hget, rfl⟩
  have hth : upload_video_thumbnail o [("stream_id", orc.stream_id)] torc sid =
      ([{ url := "rupload_igvideo/" ++ torc.thumbnail_entity_name ++ "?segmented=true&phase=end",
          method := .POST, headers := [("stream_id", orc.stream_id)] },
        upload_image o.thumbnail_path o.thumbnailContent torc.waterfall_id
          (toString o.thumbnailContent.length) torc.thumbnail_entity_name
          ("image/" ++ get_image_type o.thumbnail_path) sid torc.timestamp (some 0)],
       .ok ()) := by
    rw [upload_video_thumbnail, if_neg (not_not_intro hthumb)]
  have hfin : finish_video_upload o = Except.ok
      { url := "media/upload_finish/?video=1", method := Method.POST,
        body := Body.form [("length", HVal.str o.length), ("upload_id", HVal.str o.upload_id),
                           ("caption", HVal.str o.caption),
                           ("audio_muted", HVal.bool o.audio_muted)] } := rfl
  have hconf : configure_video o = Except.ok
      { url := "media/upload_finish/?video=1", method := Method.POST,
        body := Body.form [("length", HVal.str o.length), ("upload_id", HVal.str o.upload_id),
                           ("caption", HVal.str o.caption),
                           ("creation_logger_session_id", HVal.str o.creation_logger_session_id),
                           ("multi_sharing", HVal.int o.multi_sharing)] } := rfl
  simp only [post_video, upload_video_in_chunks]
  rw [hth, hfin, hconf]
  simp [List.append_assoc]

/-- C4 witness: the full phase ordering on a concrete 3-byte video. -/
theorem post_video_phases_witness :
    (post_video sampleVideo sampleOracle sampleThumbOracle "s").2 = .ok () ∧
    (post_video sampleVideo sampleOracle sampleThumbOracle "s").1.map Request.method =
      [Method.POST, Method.GET, Method.POST, Method.POST, Method.POST, Method.POST,
       Method.POST] := by
  have h := post_video_phases sampleVideo sampleOracle sampleThumbOracle "s"
    (Or.inl (by decide)) (fun j => rfl)
  have hb : bytes_from_file sampleVideo.pathContent 1024 = [[1, 2, 3]] := by
    rw [show sampleVideo.pathContent = [1, 2, 3] from rfl]
    rw [bytes_from_file, dif_neg (by decide)]
    rw [List.take_of_length_le (by norm_num), List.drop_eq_nil_of_le (by norm_num)]
    rw [bytes_from_file, dif_pos (Or.inr rfl)]
  constructor
  · rw [h.1]
  · rw [h.1, hb]
    decide

theorem selectConfigure_feed (st : String) (payload : List (String × HVal))
    (h : st = PostLocationFeedValue) :
    selectConfigure st payload = ([configureRequest "media/configure/" payload], .ok ()) := by
  rw [selectConfigure, if_pos h]

theorem selectConfigure_story (st : String) (payload : List (String × HVal))
    (h : st = PostLocationStoryValue) :
    selectConfigure st payload =
      ([configureRequest "media/configure_to_story/" payload], .ok ()) := by
  subst h
  rw [selectConfigure, if_neg (by decide), if_pos rfl]

theorem selectConfigure_other (st : String) (payload : List (String × HVal))
    (h1 : st ≠ PostLocationFeedValue) (h2 : st ≠ PostLocationStoryValue) :
    selectConfigure st payload = ([], .error (.unsupportedLocation st)) := by
  rw [selectConfigure, if_neg h1, if_neg h2]

theorem request_fb_places_id_trace (l : Location) (tok : String)
    (resp : LocationSearchResponse) :
    (request_fb_places_id l tok resp).1 = [] ∨
    ∃ q, (request_fb_places_id l tok resp).1 = [locationSearchRequest q] := by
  obtain ⟨lat, lng, name, fb⟩ := l
  cases lat with
  | none =>
      cases name with
      | none => cases lng <;> exact .inl rfl
      | some n => cases lng <;> exact .inr ⟨_, rfl⟩
  | some la =>
      cases lng with
      | some ln => exact .inr ⟨_, rfl⟩
      | none =>
          cases name with
          | none => exact .inl rfl
          | some n => exact .inr ⟨_, rfl⟩

theorem post_post_split (obj : PostImage) (quality : Option Int) (sid tok : String)
    (locResp : LocationSearchResponse) :
    (∃ (mid : List Request) (payload : List (String × HVal)),
       (mid = [] ∨ ∃ q, mid = [locationSearchRequest q]) ∧
       post_post obj quality sid tok locResp =
         (upload_image obj.image_path obj.imageContent obj.x_fb_waterfall_id
            obj.entity_length obj.entity_name obj.entity_type sid obj.upload_id quality ::
          (mid ++ (selectConfigure obj.source_type payload).1),
          (selectConfigure obj.source_type payload).2)) ∨
    (∃ (mid : List Request) (e : PostError),
       (mid = [] ∨ ∃ q, mid = [locationSearchRequest q]) ∧
       post_post obj quality sid tok locResp =
         (upload_image obj.image_path obj.imageContent obj.x_fb_waterfall_id
            obj.entity_length obj.entity_name obj.entity_type sid obj.upload_id quality ::
          mid, .error e) ∧
       ∃ loc, obj.location = some loc ∧
         (loc.facebook_places_id = none ∨ loc.facebook_places_id = some "") ∧
         (request_fb_places_id loc tok locResp).2 = .error e) := by
  obtain ⟨ip, ic, wf, el, en, et, uid, st, cap, loc⟩ := obj
  cases loc with
  | none => exact .inl ⟨[], _, Or.inl rfl, rfl⟩
  | some l =>
      by_cases hfb : l.facebook_places_id = none ∨ l.facebook_places_id = some ""
      · rcases hreq : request_fb_places_id l tok locResp with ⟨locReqs, res⟩
        have hshape : locReqs = [] ∨ ∃ q, locReqs = [locationSearchRequest q] := by
          have h := request_fb_places_id_trace l tok locResp
          rwa [hreq] at h
        cases res with
        | error e =>
            refine .inr ⟨locReqs, e, hshape, ?_, l, rfl, hfb, by rw [hreq]⟩
            simp only [post_post]
            rw [if_pos hfb, hreq]
        | ok fbid =>
            refine .inl ⟨locReqs,
              popKey "entity_type" (popKey "entity_name" (popKey "entity_length"
                (popKey "x_fb_waterfall_id" (popKey "image_path"
                  (PostImage.to_dict ⟨ip, ic, wf, el, en, et, uid, st, cap, some l⟩))))) ++
                [("location", HVal.locJson { l with facebook_places_id := some fbid })],
              hshape, ?_⟩
            simp only [post_post]
            rw [if_pos hfb, hreq]
            rfl
      · refine .inl ⟨[],
          popKey "entity_type" (popKey "entity_name" (popKey "entity_length"
            (popKey "x_fb_waterfall_id" (popKey "image_path"
              (PostImage.to_dict ⟨ip, ic, wf, el, en, et, uid, st, cap, some l⟩))))) ++
            [("location", HVal.locJson l)],
          Or.inl rfl, ?_⟩
        simp only [post_post]
        rw [if_neg hfb]
        rfl

/-- C5: `post_post` with target location Feed issues exactly one image-upload
call followed by exactly one configure call to `media/configure/` (with at
most the location-search call between them); with Story the configure call
targets `media/configure_to_story/`; any other target-location value fails
with a configuration error after the upload, with no configure call issued. -/
theorem post_post_endpoints (obj : PostImage) (quality : Option Int) (sid tok : String)
    (locResp : LocationSearchResponse) :
    (obj.source_type = PostLocationFeedValue →
        (post_post obj quality sid tok locResp).2 = .ok () →
        ∃ payload mid, (post_post obj quality sid tok locResp).1 =
            upload_image obj.image_path obj.imageContent obj.x_fb_waterfall_id
              obj.entity_length obj.entity_name obj.entity_type sid obj.upload_id quality ::
              (mid ++ [configureRequest "media/configure/" payload]) ∧
          (mid = [] ∨ ∃ q, mid = [locationSearchRequest q])) ∧
    (obj.source_type = PostLocationStoryValue →
        (post_post obj quality sid tok locResp).2 = .ok () →
        ∃ payload mid, (post_post obj quality sid tok locResp).1 =
            upload_image obj.image_path obj.imageContent obj.x_fb_waterfall_id
              obj.entity_length obj.entity_name obj.entity_type sid obj.upload_id quality ::
              (mid ++ [configureRequest "media/configure_to_story/" payload]) ∧
          (mid = [] ∨ ∃ q, mid = [locationSearchRequest q])) ∧
    (obj.source_type ≠ PostLocationFeedValue → obj.source_type ≠ PostLocationStoryValue →
        (∀ loc, obj.location = some loc →
            (loc.facebook_places_id = none ∨ loc.facebook_places_id = some "") →
            ∃ v, (request_fb_places_id loc tok locResp).2 = .ok v) →
        (post_post obj quality sid tok locResp).2 =
          .error (.unsupportedLocation obj.source_type) ∧
        ∃ mid, (post_post obj quality sid tok locResp).1 =
            upload_image obj.image_path obj.imageContent obj.x_fb_waterfall_id
              obj.entity_length obj.entity_name obj.entity_type sid obj.upload_id quality ::
              mid ∧
          (mid = [] ∨ ∃ q, mid = [locationSearchRequest q])) := by
  have hsplit := post_post_split obj quality sid tok locResp
  refine ⟨?_, ?_, ?_⟩
  · intro hf hok
    rcases hsplit with ⟨mid, payload, hmid, heq⟩ | ⟨mid, e, hmid, heq, _⟩
    · rw [selectConfigure_feed _ _ hf] at heq
      exact ⟨payload, mid, by rw [heq], hmid⟩
    · rw [heq] at hok
      exact Except.noConfusion hok
  · intro hs hok
    rcases hsplit with ⟨mid, payload, hmid, heq⟩ | ⟨mid, e, hmid, heq, _⟩
    · rw [selectConfigure_story _ _ hs] at heq
      exact ⟨payload, mid, by rw [heq], hmid⟩
    · rw [heq] at hok
      exact Except.noConfusion hok
  · intro hf hs hloc
    rcases hsplit with ⟨mid, payload, hmid, heq⟩ | ⟨mid, e, hmid, heq, loc, hlocEq, hfb, herr⟩
    · rw [selectConfigure_other _ _ hf hs] at heq
      refine ⟨by rw [heq], mid, ?_, hmid⟩
      rw [heq]
      simp
    · obtain ⟨v, hv⟩ := hloc loc hlocEq hfb
      rw [herr] at hv
      exact Except.noConfusion hv

/-- C5 witness: a concrete Feed image post issues the upload followed by the
`media/configure/` call. -/
theorem post_post_endpoints_witness :
    ∃ payload mid,
      (post_post samplePostImage (some 80) "s" "t"
          { status := "ok", venues := [] }).1 =
        upload_image "p.jpg" [5] "wf" "1" "en" "image/jpeg" "s" "uid" (some 80) ::
          (mid ++ [configureRequest "media/configure/" payload]) ∧
      (mid = [] ∨ ∃ q, mid = [locationSearchRequest q]) := by
  have h := (post_post_endpoints samplePostImage (some 80) "s" "t"
    { status := "ok", venues := [] }).1 rfl rfl
  exact h

end Instauto
